import Mathlib

/-!
Verification development for the capacitor-background-permission plugin.

The repository has three implementations of `checkAndRequestPermission`:

* an iOS implementation (`ios/Plugin/BackgroundLocationPermissionPlugin.swift`),
  a state machine driven by `CLLocationManagerDelegate` callbacks, embedded
  below in namespace `IOSP`;
* an Android implementation
  (`BackgroundLocationPermissionPlugin.java`), a state machine driven by
  `handleRequestPermissionsResult` callbacks, embedded in namespace `AndroidP`;
* a web stub (`src/web.ts`, plus a second copy of the same class with a
  different body and the built `dist/` output), embedded in namespace `WebP`.

Stateful Swift/Java methods are embedded as functions
`State → State × List Effect`: the returned list records, in order, the
externally visible actions the method performs (OS-level permission requests,
resolving the pending Capacitor call, rejecting it with an error code).
The OS-side facts a method reads (authorization status, `checkSelfPermission`
answers, SDK version, activity liveness, `shouldShowRequestPermissionRationale`)
are passed explicitly as an environment argument, since in the source they are
fresh queries against the OS at the point of use.
-/

namespace IOSP

/-- Embedding of `CLAuthorizationStatus` as used by the Swift plugin
(the five cases its `switch` statements distinguish). -/
inductive CLAuthorizationStatus where
  | notDetermined
  | restricted
  | denied
  | authorizedWhenInUse
  | authorizedAlways
deriving DecidableEq, Repr

/-- Embedding of `statusString(_:)` from the Swift plugin. -/
def statusString : CLAuthorizationStatus → String
  | .notDetermined => "notDetermined"
  | .restricted => "restricted"
  | .denied => "denied"
  | .authorizedWhenInUse => "whenInUse"
  | .authorizedAlways => "always"

/-- The dictionary built in `resolvePermissionCall`:
`["hasAlwaysPermission": …, "authorizationStatus": …]`. -/
structure PermissionResult where
  hasAlwaysPermission : Bool
  authorizationStatus : String
deriving DecidableEq, Repr

/-- Externally visible actions of the Swift plugin. -/
inductive Effect where
  | requestWhenInUse
  | requestAlways
  | resolve (r : PermissionResult)
  | reject (code : String)
deriving DecidableEq, Repr

/-- Mutable fields of `BackgroundLocationPermissionPlugin` (Swift).
`locationManagerOk` stands for `locationManager != nil`; `timeoutArmed`
for `timeoutTimer != nil`; the two observer fields for the registered
`NotificationCenter` observers. -/
structure PState where
  locationManagerOk : Bool
  pendingCall : Bool
  timeoutArmed : Bool
  isRequestingPermission : Bool
  hasRequestedAlways : Bool
  backgroundObserver : Bool
  foregroundObserver : Bool
  wasBackgroundedDuringRequest : Bool
deriving DecidableEq, Repr

/-- Embedding of `cancelTimeoutTimer()`: invalidate and clear the timer. -/
def cancelTimeoutTimer (s : PState) : PState :=
  { s with timeoutArmed := false }

/-- Embedding of `startTimeoutTimer()`: cancel any prior timer, then arm a
fresh 30-second one. -/
def startTimeoutTimer (s : PState) : PState :=
  { cancelTimeoutTimer s with timeoutArmed := true }

/-- Embedding of `cleanup()`. -/
def cleanup (s : PState) : PState :=
  { cancelTimeoutTimer s with
      pendingCall := false
      isRequestingPermission := false
      hasRequestedAlways := false
      wasBackgroundedDuringRequest := false }

/-- Embedding of `resolvePermissionCall(status:)`: when a pending call
exists, resolve it with `hasAlwaysPermission = (status == .authorizedAlways)`
and `authorizationStatus = statusString(status)`, then clean up; otherwise
only log a warning. -/
def resolvePermissionCall (status : CLAuthorizationStatus) (s : PState) :
    PState × List Effect :=
  if s.pendingCall then
    (cleanup s, [.resolve ⟨status == .authorizedAlways, statusString status⟩])
  else
    (s, [])

/-- Embedding of `rejectWithError(code:message:details:)`: when a pending
call exists, reject it with the code and clean up; otherwise only log. -/
def rejectWithError (code : String) (s : PState) : PState × List Effect :=
  if s.pendingCall then
    (cleanup s, [.reject code])
  else
    (s, [])

/-- Embedding of `handlePermissionRequest()`: branch on the current
authorization status reported by the location manager. -/
def handlePermissionRequest (currentStatus : CLAuthorizationStatus)
    (s : PState) : PState × List Effect :=
  if !s.locationManagerOk then
    rejectWithError "LOCATION_MANAGER_INIT_FAILED" s
  else
    match currentStatus with
    | .notDetermined =>
        (startTimeoutTimer { s with hasRequestedAlways := false },
         [.requestWhenInUse])
    | .authorizedWhenInUse =>
        (startTimeoutTimer { s with hasRequestedAlways := true },
         [.requestAlways])
    | .authorizedAlways => resolvePermissionCall .authorizedAlways s
    | .denied => resolvePermissionCall .denied s
    | .restricted => resolvePermissionCall .restricted s

/-- Embedding of `checkAndRequestPermission(_:)` (Swift): the single-flight
guard, the location-manager guard, session setup, then
`handlePermissionRequest`. A rejection of the incoming call in the two guard
branches goes through `rejectCallWithError`, which does not touch the open
session's state. -/
def checkAndRequestPermission (currentStatus : CLAuthorizationStatus)
    (s : PState) : PState × List Effect :=
  if s.isRequestingPermission then
    (s, [.reject "REQUEST_IN_PROGRESS"])
  else if !s.locationManagerOk then
    (s, [.reject "LOCATION_MANAGER_INIT_FAILED"])
  else
    handlePermissionRequest currentStatus
      { s with
          isRequestingPermission := true
          pendingCall := true
          wasBackgroundedDuringRequest := false }

/-- Embedding of `handleAuthorizationStatusChange(status:)`, the
`CLLocationManagerDelegate`-driven part of the escalation state machine. -/
def handleAuthorizationStatusChange (status : CLAuthorizationStatus)
    (s : PState) : PState × List Effect :=
  if !s.locationManagerOk then
    rejectWithError "LOCATION_MANAGER_INIT_FAILED" s
  else
    match status with
    | .authorizedWhenInUse =>
        if !s.hasRequestedAlways then
          (startTimeoutTimer { s with hasRequestedAlways := true },
           [.requestAlways])
        else
          resolvePermissionCall .authorizedWhenInUse (cancelTimeoutTimer s)
    | .authorizedAlways =>
        resolvePermissionCall .authorizedAlways (cancelTimeoutTimer s)
    | .denied => resolvePermissionCall .denied (cancelTimeoutTimer s)
    | .restricted => resolvePermissionCall .restricted (cancelTimeoutTimer s)
    | .notDetermined => (s, [])

/-- Embedding of `locationManager(_:didChangeAuthorization:)`: clear the
backgrounded flag if set, then dispatch to `handleAuthorizationStatusChange`. -/
def didChangeAuthorization (status : CLAuthorizationStatus) (s : PState) :
    PState × List Effect :=
  handleAuthorizationStatusChange status
    { s with wasBackgroundedDuringRequest := false }

/-- Embedding of the body of the timer closure in `startTimeoutTimer()`:
what runs when the 30-second timer fires before being invalidated. -/
def timeoutTimerFired (s : PState) : PState × List Effect :=
  if s.wasBackgroundedDuringRequest then
    rejectWithError "APP_BACKGROUNDED" s
  else
    rejectWithError "PERMISSION_TIMEOUT" s

/-- Embedding of the `didEnterBackgroundNotification` observer closure. -/
def didEnterBackground (s : PState) : PState :=
  if s.isRequestingPermission then
    { s with wasBackgroundedDuringRequest := true }
  else
    s

/-- Embedding of `deinit`: remove the two lifecycle observers. Nothing else
happens: no call is rejected and no session field is cleared. -/
def deinitPlugin (s : PState) : PState × List Effect :=
  ({ s with backgroundObserver := false, foregroundObserver := false }, [])

/-- Requests among a list of effects, in order. -/
def requestsOf (fx : List Effect) : List Effect :=
  fx.filter fun e =>
    match e with
    | .requestWhenInUse => true
    | .requestAlways => true
    | _ => false

/-- Resolutions among a list of effects, in order. -/
def resolutionsOf (fx : List Effect) : List PermissionResult :=
  fx.filterMap fun e =>
    match e with
    | .resolve r => some r
    | _ => none

/-- Rejections among a list of effects, in order. -/
def rejectionsOf (fx : List Effect) : List String :=
  fx.filterMap fun e =>
    match e with
    | .reject c => some c
    | _ => none

/-- Run the happy-path scenario of the escalation sequence from a given
start state: invoke the operation while the OS reports `notDetermined`, then
deliver a delegate callback reporting `authorizedWhenInUse`, then one
reporting `authorizedAlways`; collect all effects in order. -/
def happyPathRun (s : PState) : PState × List Effect :=
  let r1 := checkAndRequestPermission .notDetermined s
  let r2 := didChangeAuthorization .authorizedWhenInUse r1.1
  let r3 := didChangeAuthorization .authorizedAlways r2.1
  (r3.1, r1.2 ++ r2.2 ++ r3.2)

end IOSP

namespace AndroidP

/-- The two runtime permissions the Android plugin works with. -/
inductive Perm where
  | fineLocation
  | backgroundLocation
deriving DecidableEq, Repr

/-- Embedding of `MIN_SDK_FOR_BACKGROUND_LOCATION` (Android 10, API 29). -/
def MIN_SDK_FOR_BACKGROUND_LOCATION : Nat := 29

/-- Embedding of `REQUEST_CODE_FINE_LOCATION`. -/
def REQUEST_CODE_FINE_LOCATION : Nat := 1001

/-- Embedding of `REQUEST_CODE_BACKGROUND_LOCATION`. -/
def REQUEST_CODE_BACKGROUND_LOCATION : Nat := 1002

/-- OS-side facts the Java plugin queries at the point of use: the SDK
version, activity liveness (`getActivity() == null`, and
`isFinishing() || isDestroyed()`), the two `checkSelfPermission` answers and
the two `shouldShowRequestPermissionRationale` answers. -/
structure Env where
  sdkInt : Nat
  activityNull : Bool
  activityFinishingOrDestroyed : Bool
  fineGranted : Bool
  backgroundGranted : Bool
  rationaleFine : Bool
  rationaleBackground : Bool
deriving DecidableEq, Repr

/-- The `JSObject` built in `resolveWithPermissions`. -/
structure JSResult where
  hasAlwaysPermission : Bool
  hasForegroundLocation : Bool
  hasBackgroundLocation : Bool
  authorizationStatus : String
deriving DecidableEq, Repr

/-- Externally visible actions of the Java plugin. -/
inductive AEffect where
  | requestPermissions (p : Perm)
  | resolve (r : JSResult)
  | reject (code : String)
deriving DecidableEq, Repr

/-- Mutable fields of `BackgroundLocationPermissionPlugin` (Java);
`pendingCall` stands for `pendingCall != null`. -/
structure AState where
  pendingCall : Bool
  isRequestingPermission : Bool
  hasRequestedFineLocation : Bool
  hasRequestedBackgroundLocation : Bool
  currentRequestedPermission : Option Perm
deriving DecidableEq, Repr

/-- The `activity == null || activity.isFinishing() || activity.isDestroyed()`
test used by the Java plugin. -/
def activityUnavailable (env : Env) : Bool :=
  env.activityNull || env.activityFinishingOrDestroyed

/-- Embedding of `cleanup()` (Java). -/
def cleanup (_s : AState) : AState :=
  { pendingCall := false
    isRequestingPermission := false
    hasRequestedFineLocation := false
    hasRequestedBackgroundLocation := false
    currentRequestedPermission := none }

/-- The result object built in `resolveWithPermissions` from a fresh
`checkSelfPermission` query against the OS at resolution time. -/
def freshResult (env : Env) : JSResult :=
  let hasForegroundLocation := env.fineGranted
  let hasBackgroundLocation :=
    decide (MIN_SDK_FOR_BACKGROUND_LOCATION ≤ env.sdkInt) && env.backgroundGranted
  { hasAlwaysPermission := hasBackgroundLocation
    hasForegroundLocation := hasForegroundLocation
    hasBackgroundLocation := hasBackgroundLocation
    authorizationStatus :=
      if hasBackgroundLocation then "always"
      else if hasForegroundLocation then "whenInUse"
      else "denied" }

/-- Embedding of `resolveWithPermissions()`: guard on the pending call and
on `getActivity() == null`, then resolve with the freshly queried result. -/
def resolveWithPermissions (env : Env) (s : AState) : AState × List AEffect :=
  if !s.pendingCall then
    (cleanup s, [])
  else if env.activityNull then
    (cleanup s, [.reject "ACTIVITY_DESTROYED"])
  else
    (cleanup s, [.resolve (freshResult env)])

/-- Embedding of `checkAndRequestPermissionsSequentially()`. -/
def checkAndRequestPermissionsSequentially (env : Env) (s : AState) :
    AState × List AEffect :=
  if activityUnavailable env then
    if s.pendingCall then (cleanup s, [.reject "ACTIVITY_DESTROYED"])
    else (s, [])
  else if !env.fineGranted then
    ({ s with
         hasRequestedFineLocation := true
         currentRequestedPermission := some .fineLocation },
     [.requestPermissions .fineLocation])
  else if decide (MIN_SDK_FOR_BACKGROUND_LOCATION ≤ env.sdkInt)
      && !env.backgroundGranted then
    ({ s with
         hasRequestedBackgroundLocation := true
         currentRequestedPermission := some .backgroundLocation },
     [.requestPermissions .backgroundLocation])
  else
    resolveWithPermissions env s

/-- Embedding of `checkAndRequestPermission(PluginCall)` (Java): single-flight
guard, SDK-version guard, activity guards, session setup, then the sequential
check. The guard rejections leave the plugin fields untouched. -/
def checkAndRequestPermission (env : Env) (s : AState) :
    AState × List AEffect :=
  if s.isRequestingPermission then
    (s, [.reject "REQUEST_IN_PROGRESS"])
  else if env.sdkInt < MIN_SDK_FOR_BACKGROUND_LOCATION then
    (s, [.reject "SDK_VERSION_UNSUPPORTED"])
  else if activityUnavailable env then
    (s, [.reject "ACTIVITY_DESTROYED"])
  else
    checkAndRequestPermissionsSequentially env
      { s with
          pendingCall := true
          isRequestingPermission := true
          hasRequestedFineLocation := false
          hasRequestedBackgroundLocation := false }

/-- Embedding of `handleFineLocationResult(...)`: on denial, distinguish
permanent denial (no rationale) from re-promptable denial; on grant, escalate
to `ACCESS_BACKGROUND_LOCATION` on API 29+ or resolve. -/
def handleFineLocationResult (env : Env) (granted : Bool) (s : AState) :
    AState × List AEffect :=
  if !granted then
    if !env.rationaleFine then
      (cleanup s, [.reject "PERMANENTLY_DENIED"])
    else
      (cleanup s, [.reject "PERMISSION_DENIED"])
  else if decide (MIN_SDK_FOR_BACKGROUND_LOCATION ≤ env.sdkInt) then
    if !env.backgroundGranted then
      ({ s with
           hasRequestedBackgroundLocation := true
           currentRequestedPermission := some .backgroundLocation },
       [.requestPermissions .backgroundLocation])
    else
      resolveWithPermissions env s
  else
    resolveWithPermissions env s

/-- Embedding of `handleBackgroundLocationResult(...)`: on denial,
permanent denial rejects, re-promptable denial resolves with the foreground
tier; on grant, resolve. -/
def handleBackgroundLocationResult (env : Env) (granted : Bool) (s : AState) :
    AState × List AEffect :=
  if !granted then
    if !env.rationaleBackground then
      (cleanup s, [.reject "PERMANENTLY_DENIED"])
    else
      let r := resolveWithPermissions env s
      (cleanup r.1, r.2)
  else
    resolveWithPermissions env s

/-- Embedding of `handleRequestPermissionsResult(...)`: guards on the
pending session, the activity and a non-empty result array, then dispatch on
the request code. -/
def handleRequestPermissionsResult (env : Env) (requestCode : Nat)
    (grantResults : List Bool) (s : AState) : AState × List AEffect :=
  if !s.pendingCall || !s.isRequestingPermission then
    (s, [])
  else if activityUnavailable env then
    (cleanup s, [.reject "ACTIVITY_DESTROYED"])
  else
    match grantResults with
    | [] => (cleanup s, [.reject "PERMISSION_DENIED"])
    | granted :: _ =>
        if requestCode == REQUEST_CODE_FINE_LOCATION then
          handleFineLocationResult env granted s
        else if requestCode == REQUEST_CODE_BACKGROUND_LOCATION then
          handleBackgroundLocationResult env granted s
        else
          (cleanup s, [])

/-- Embedding of `handleOnDestroy()`: reject a pending in-progress call with
`ACTIVITY_DESTROYED` and clean up; otherwise do nothing. -/
def handleOnDestroy (s : AState) : AState × List AEffect :=
  if s.pendingCall && s.isRequestingPermission then
    (cleanup s, [.reject "ACTIVITY_DESTROYED"])
  else
    (s, [])

/-- Requests among a list of Android effects, in order. -/
def requestsOf (fx : List AEffect) : List Perm :=
  fx.filterMap fun e =>
    match e with
    | .requestPermissions p => some p
    | _ => none

/-- Resolutions among a list of Android effects, in order. -/
def resolutionsOf (fx : List AEffect) : List JSResult :=
  fx.filterMap fun e =>
    match e with
    | .resolve r => some r
    | _ => none

/-- Rejections among a list of Android effects, in order. -/
def rejectionsOf (fx : List AEffect) : List String :=
  fx.filterMap fun e =>
    match e with
    | .reject c => some c
    | _ => none

end AndroidP

namespace WebP

/-- The result type of `checkAndRequestPermission` (`LocationPermissionStatus`
from `definitions.ts`); never produced on the web. -/
structure LocationPermissionStatus where
  hasAlwaysPermission : Bool
  authorizationStatus : String
deriving DecidableEq, Repr

/-- A `CapacitorException` as thrown by `@capacitor/core`: a message plus
an exception code. -/
structure CapacitorException where
  message : String
  code : String
deriving DecidableEq, Repr

/-- Embedding of `WebPlugin.unimplemented(msg)` from `@capacitor/core`
(an external collaborator): it builds a `CapacitorException` with
`ExceptionCode.Unimplemented`, whose value is the string `UNIMPLEMENTED`. -/
def unimplemented (msg : String) : CapacitorException :=
  { message := msg, code := "UNIMPLEMENTED" }

/-- The error message thrown by the `PLATFORM_UNSUPPORTED` variant of the
web stub (the unnamed copy of `web.ts` and the built `dist/esm/web.js` and
`dist/plugin.cjs.js`). -/
def platformUnsupportedMessage : String :=
  "PLATFORM_UNSUPPORTED: Web platform is not supported | Details: Background location permissions are not available on web platforms. This feature requires native iOS or Android capabilities."

/-- Embedding of `BackgroundLocationPermissionWeb.checkAndRequestPermission`
from the unnamed `web.ts` copy and the built `dist/` output: unconditionally
throw `new Error(platformUnsupportedMessage)`. A thrown plain `Error` is
modelled by its message string. -/
def checkAndRequestPermissionDist : Except String LocationPermissionStatus :=
  .error platformUnsupportedMessage

/-- Embedding of `BackgroundLocationPermissionWeb.checkAndRequestPermission`
from `src/web.ts`: unconditionally `throw this.unimplemented(...)`. -/
def checkAndRequestPermissionSrc :
    Except CapacitorException LocationPermissionStatus :=
  .error (unimplemented "Web platform is not supported.")

end WebP

/-! ## Helper lemmas -/

namespace IOSP

theorem resolvePermissionCall_snd (status : CLAuthorizationStatus) (s : PState) :
    (resolvePermissionCall status s).2 =
      if s.pendingCall then
        [.resolve ⟨status == .authorizedAlways, statusString status⟩]
      else [] := by
  unfold resolvePermissionCall
  cases hpc : s.pendingCall <;> simp [hpc]

theorem beq_always_iff (status : CLAuthorizationStatus) :
    ((status == CLAuthorizationStatus.authorizedAlways) = true ↔
      statusString status = "always") := by
  cases status <;> decide

theorem resolvePermissionCall_res_iff (status : CLAuthorizationStatus)
    (s : PState) (r : PermissionResult)
    (hr : r ∈ resolutionsOf (resolvePermissionCall status s).2) :
    (r.hasAlwaysPermission = true ↔ r.authorizationStatus = "always") := by
  rw [resolvePermissionCall_snd] at hr
  split at hr
  · simp [resolutionsOf] at hr
    subst hr
    exact beq_always_iff status
  · simp [resolutionsOf] at hr

theorem rejectWithError_resolutions (code : String) (s : PState) :
    resolutionsOf (rejectWithError code s).2 = [] := by
  unfold rejectWithError
  cases hpc : s.pendingCall <;> simp [hpc, resolutionsOf]

theorem handlePermissionRequest_res_iff (status : CLAuthorizationStatus)
    (s : PState) (r : PermissionResult)
    (hr : r ∈ resolutionsOf (handlePermissionRequest status s).2) :
    (r.hasAlwaysPermission = true ↔ r.authorizationStatus = "always") := by
  unfold handlePermissionRequest at hr
  split at hr
  · rw [rejectWithError_resolutions] at hr
    simp at hr
  · cases status <;>
      first
        | exact resolvePermissionCall_res_iff _ _ r hr
        | simp [resolutionsOf] at hr

theorem handleAuthorizationStatusChange_res_iff (status : CLAuthorizationStatus)
    (s : PState) (r : PermissionResult)
    (hr : r ∈ resolutionsOf (handleAuthorizationStatusChange status s).2) :
    (r.hasAlwaysPermission = true ↔ r.authorizationStatus = "always") := by
  unfold handleAuthorizationStatusChange at hr
  split at hr
  · rw [rejectWithError_resolutions] at hr
    simp at hr
  · cases status
    case notDetermined => simp [resolutionsOf] at hr
    case restricted => exact resolvePermissionCall_res_iff _ _ r hr
    case denied => exact resolvePermissionCall_res_iff _ _ r hr
    case authorizedAlways => exact resolvePermissionCall_res_iff _ _ r hr
    case authorizedWhenInUse =>
      dsimp only at hr
      split at hr
      · simp [resolutionsOf] at hr
      · exact resolvePermissionCall_res_iff _ _ r hr

theorem checkAndRequestPermission_res_iff (status : CLAuthorizationStatus)
    (s : PState) (r : PermissionResult)
    (hr : r ∈ resolutionsOf (checkAndRequestPermission status s).2) :
    (r.hasAlwaysPermission = true ↔ r.authorizationStatus = "always") := by
  unfold checkAndRequestPermission at hr
  split at hr
  · simp [resolutionsOf] at hr
  · split at hr
    · simp [resolutionsOf] at hr
    · exact handlePermissionRequest_res_iff status _ r hr

theorem didChangeAuthorization_res_iff (status : CLAuthorizationStatus)
    (s : PState) (r : PermissionResult)
    (hr : r ∈ resolutionsOf (didChangeAuthorization status s).2) :
    (r.hasAlwaysPermission = true ↔ r.authorizationStatus = "always") :=
  handleAuthorizationStatusChange_res_iff status _ r hr

end IOSP

namespace AndroidP

theorem resolveWithPermissions_res (env : Env) (s : AState) (r : JSResult)
    (hr : r ∈ resolutionsOf (resolveWithPermissions env s).2) :
    r = freshResult env := by
  unfold resolveWithPermissions at hr
  split at hr
  · simp [resolutionsOf] at hr
  · split at hr <;> simp [resolutionsOf] at hr
    exact hr

theorem freshResult_iff (env : Env) :
    ((freshResult env).hasAlwaysPermission = true ↔
      (freshResult env).authorizationStatus = "always") := by
  unfold freshResult
  cases hb : (decide (MIN_SDK_FOR_BACKGROUND_LOCATION ≤ env.sdkInt)
      && env.backgroundGranted) <;>
    cases hf : env.fineGranted <;> simp [hb, hf]

theorem freshResult_status_mem (env : Env) :
    (freshResult env).authorizationStatus = "always" ∨
      (freshResult env).authorizationStatus = "whenInUse" ∨
      (freshResult env).authorizationStatus = "denied" := by
  unfold freshResult
  cases hb : (decide (MIN_SDK_FOR_BACKGROUND_LOCATION ≤ env.sdkInt)
      && env.backgroundGranted) <;>
    cases hf : env.fineGranted <;> simp [hb, hf]

theorem handleFineLocationResult_res (env : Env) (granted : Bool) (s : AState)
    (r : JSResult)
    (hr : r ∈ resolutionsOf (handleFineLocationResult env granted s).2) :
    r = freshResult env := by
  unfold handleFineLocationResult at hr
  split at hr
  · split at hr <;> simp [resolutionsOf] at hr
  · split at hr
    · split at hr
      · simp [resolutionsOf] at hr
      · exact resolveWithPermissions_res env s r hr
    · exact resolveWithPermissions_res env s r hr

theorem handleBackgroundLocationResult_res (env : Env) (granted : Bool)
    (s : AState) (r : JSResult)
    (hr : r ∈ resolutionsOf (handleBackgroundLocationResult env granted s).2) :
    r = freshResult env := by
  unfold handleBackgroundLocationResult at hr
  split at hr
  · split at hr
    · simp [resolutionsOf] at hr
    · exact resolveWithPermissions_res env s r hr
  · exact resolveWithPermissions_res env s r hr

theorem checkSeq_res (env : Env) (s : AState) (r : JSResult)
    (hr : r ∈ resolutionsOf (checkAndRequestPermissionsSequentially env s).2) :
    r = freshResult env := by
  unfold checkAndRequestPermissionsSequentially at hr
  split at hr
  · split at hr <;> simp [resolutionsOf] at hr
  · split at hr
    · simp [resolutionsOf] at hr
    · split at hr
      · simp [resolutionsOf] at hr
      · exact resolveWithPermissions_res env s r hr

theorem checkAndRequestPermission_res (env : Env) (s : AState) (r : JSResult)
    (hr : r ∈ resolutionsOf (checkAndRequestPermission env s).2) :
    r = freshResult env := by
  unfold checkAndRequestPermission at hr
  split at hr
  · simp [resolutionsOf] at hr
  · split at hr
    · simp [resolutionsOf] at hr
    · split at hr
      · simp [resolutionsOf] at hr
      · exact checkSeq_res env _ r hr

theorem handleRequestPermissionsResult_res (env : Env) (requestCode : Nat)
    (grantResults : List Bool) (s : AState) (r : JSResult)
    (hr : r ∈ resolutionsOf
      (handleRequestPermissionsResult env requestCode grantResults s).2) :
    r = freshResult env := by
  unfold handleRequestPermissionsResult at hr
  split at hr
  · simp [resolutionsOf] at hr
  · split at hr
    · simp [resolutionsOf] at hr
    · split at hr
      · simp [resolutionsOf] at hr
      · split at hr
        · exact handleFineLocationResult_res env _ s r hr
        · split at hr
          · exact handleBackgroundLocationResult_res env _ s r hr
          · simp [resolutionsOf] at hr

end AndroidP

namespace AndroidP

/-- The Undetermined-to-Background scenario on the Android flow: invoke the
operation with fine location not yet granted, deliver a grant result for the
fine-location request, then a grant result for the background-location
request; collect all effects in order. -/
def happyPathRun (env0 env1 env2 : Env) (s : AState) : AState × List AEffect :=
  let r1 := checkAndRequestPermission env0 s
  let r2 := handleRequestPermissionsResult env1 REQUEST_CODE_FINE_LOCATION [true] r1.1
  let r3 := handleRequestPermissionsResult env2 REQUEST_CODE_BACKGROUND_LOCATION [true] r2.1
  (r3.1, r1.2 ++ r2.2 ++ r3.2)

end AndroidP

/-! ## Claim theorems -/

/-- C1: starting from an Undetermined report, with the OS callback then
granting the Foreground tier and a later callback granting the Background
tier, `checkAndRequestPermission` resolves with `hasAlwaysPermission = true`
at the Background tier, issues exactly two OS-level requests with the
Foreground one strictly first, and never issues the Background request in
the initial step (before Foreground is granted). Shown for both the
iOS-style and the Android-style implementations, over arbitrary values of
the state fields the scenario does not constrain. -/
theorem c1_escalation_happy_path :
    (∀ pc tm hra bo fo wb : Bool,
      IOSP.requestsOf (IOSP.happyPathRun ⟨true, pc, tm, false, hra, bo, fo, wb⟩).2 =
        [.requestWhenInUse, .requestAlways] ∧
      IOSP.resolutionsOf (IOSP.happyPathRun ⟨true, pc, tm, false, hra, bo, fo, wb⟩).2 =
        [⟨true, "always"⟩] ∧
      IOSP.rejectionsOf (IOSP.happyPathRun ⟨true, pc, tm, false, hra, bo, fo, wb⟩).2 = [] ∧
      IOSP.requestsOf
          (IOSP.checkAndRequestPermission .notDetermined
            ⟨true, pc, tm, false, hra, bo, fo, wb⟩).2 =
        [.requestWhenInUse]) ∧
    (∀ (sdk : Nat), 29 ≤ sdk →
      ∀ (r0f r0b r1f r1b r2f r2b p b1 b2 : Bool) (c : Option AndroidP.Perm),
      AndroidP.requestsOf
          (AndroidP.happyPathRun ⟨sdk, false, false, false, false, r0f, r0b⟩
            ⟨sdk, false, false, true, false, r1f, r1b⟩
            ⟨sdk, false, false, true, true, r2f, r2b⟩ ⟨p, false, b1, b2, c⟩).2 =
        [.fineLocation, .backgroundLocation] ∧
      AndroidP.resolutionsOf
          (AndroidP.happyPathRun ⟨sdk, false, false, false, false, r0f, r0b⟩
            ⟨sdk, false, false, true, false, r1f, r1b⟩
            ⟨sdk, false, false, true, true, r2f, r2b⟩ ⟨p, false, b1, b2, c⟩).2 =
        [⟨true, true, true, "always"⟩] ∧
      AndroidP.rejectionsOf
          (AndroidP.happyPathRun ⟨sdk, false, false, false, false, r0f, r0b⟩
            ⟨sdk, false, false, true, false, r1f, r1b⟩
            ⟨sdk, false, false, true, true, r2f, r2b⟩ ⟨p, false, b1, b2, c⟩).2 = [] ∧
      AndroidP.requestsOf
          (AndroidP.checkAndRequestPermission ⟨sdk, false, false, false, false, r0f, r0b⟩
            ⟨p, false, b1, b2, c⟩).2 =
        [.fineLocation]) := by
  constructor
  · intro pc tm hra bo fo wb
    exact ⟨rfl, rfl, rfl, rfl⟩
  · intro sdk h r0f r0b r1f r1b r2f r2b p b1 b2 c
    have h1 : ¬ (sdk < AndroidP.MIN_SDK_FOR_BACKGROUND_LOCATION) := by
      simpa [AndroidP.MIN_SDK_FOR_BACKGROUND_LOCATION] using Nat.not_lt.mpr h
    have h2 : decide (AndroidP.MIN_SDK_FOR_BACKGROUND_LOCATION ≤ sdk) = true :=
      decide_eq_true h
    refine ⟨?_, ?_, ?_, ?_⟩ <;>
      simp [AndroidP.happyPathRun, AndroidP.checkAndRequestPermission,
        AndroidP.checkAndRequestPermissionsSequentially,
        AndroidP.handleRequestPermissionsResult,
        AndroidP.handleFineLocationResult,
        AndroidP.handleBackgroundLocationResult,
        AndroidP.resolveWithPermissions, AndroidP.freshResult,
        AndroidP.activityUnavailable, AndroidP.requestsOf,
        AndroidP.resolutionsOf, AndroidP.rejectionsOf,
        AndroidP.REQUEST_CODE_FINE_LOCATION,
        AndroidP.REQUEST_CODE_BACKGROUND_LOCATION, h1, h2]

/-- Witness for C1 with all unconstrained fields instantiated and the SDK
version at the boundary value 29. -/
theorem c1_escalation_happy_path_witness :
    IOSP.resolutionsOf
        (IOSP.happyPathRun ⟨true, false, false, false, false, true, true, false⟩).2 =
      [⟨true, "always"⟩] ∧
    AndroidP.resolutionsOf
        (AndroidP.happyPathRun ⟨29, false, false, false, false, false, false⟩
          ⟨29, false, false, true, false, false, false⟩
          ⟨29, false, false, true, true, false, false⟩
          ⟨false, false, false, false, none⟩).2 =
      [⟨true, true, true, "always"⟩] :=
  ⟨(c1_escalation_happy_path.1 false false false true true false).2.1,
   (c1_escalation_happy_path.2 29 (by decide)
      false false false false false false false false false none).2.1⟩

/-- C3 counterexample: the claim says a non-permanent denial is always
delivered as a successful resolution, never as an error. On the Android
flow, start with fine location not granted, issue the fine-location request,
then deliver a denial whose rationale flag is true (re-promptable): the call
is rejected with error code `PERMISSION_DENIED` and nothing is resolved. -/
theorem c3_foreground_denial_rejected_counterexample :
    AndroidP.rejectionsOf
        (AndroidP.handleRequestPermissionsResult
          ⟨29, false, false, false, false, true, true⟩
          AndroidP.REQUEST_CODE_FINE_LOCATION [false]
          (AndroidP.checkAndRequestPermission
            ⟨29, false, false, false, false, true, true⟩
            ⟨false, false, false, false, none⟩).1).2 =
      ["PERMISSION_DENIED"] ∧
    AndroidP.resolutionsOf
        ((AndroidP.checkAndRequestPermission
            ⟨29, false, false, false, false, true, true⟩
            ⟨false, false, false, false, none⟩).2 ++
          (AndroidP.handleRequestPermissionsResult
            ⟨29, false, false, false, false, true, true⟩
            AndroidP.REQUEST_CODE_FINE_LOCATION [false]
            (AndroidP.checkAndRequestPermission
              ⟨29, false, false, false, false, true, true⟩
              ⟨false, false, false, false, none⟩).1).2) = [] :=
  ⟨rfl, rfl⟩

/-- C3 amended: on the iOS-style flow a Denied or Restricted report is a
successful resolution carrying that tier, and on the Android flow a
re-promptable background-tier decline is a successful resolution at the
foreground tier; but a re-promptable foreground-tier (fine location) denial
on the Android flow is rejected with error code `PERMISSION_DENIED` rather
than delivered as a successful resolution. -/
theorem c3_denial_outcomes_amended :
    (∀ s : IOSP.PState, s.locationManagerOk = true → s.pendingCall = true →
      (IOSP.handlePermissionRequest .denied s).2 = [.resolve ⟨false, "denied"⟩] ∧
      (IOSP.handlePermissionRequest .restricted s).2 = [.resolve ⟨false, "restricted"⟩] ∧
      (IOSP.didChangeAuthorization .denied s).2 = [.resolve ⟨false, "denied"⟩] ∧
      (IOSP.didChangeAuthorization .restricted s).2 = [.resolve ⟨false, "restricted"⟩]) ∧
    (∀ (env : AndroidP.Env) (s : AndroidP.AState),
      env.rationaleBackground = true → env.activityNull = false →
      s.pendingCall = true →
      (AndroidP.handleBackgroundLocationResult env false s).2 =
        [.resolve (AndroidP.freshResult env)]) ∧
    (∀ (env : AndroidP.Env) (s : AndroidP.AState),
      env.rationaleFine = true →
      (AndroidP.handleFineLocationResult env false s).2 =
        [.reject "PERMISSION_DENIED"]) := by
  refine ⟨?_, ?_, ?_⟩
  · intro s hlm hpc
    refine ⟨?_, ?_, ?_, ?_⟩ <;>
      simp [IOSP.handlePermissionRequest, IOSP.didChangeAuthorization,
        IOSP.handleAuthorizationStatusChange, IOSP.resolvePermissionCall,
        IOSP.cancelTimeoutTimer, IOSP.statusString, hlm, hpc]
  · intro env s hrb han hpc
    simp [AndroidP.handleBackgroundLocationResult,
      AndroidP.resolveWithPermissions, hrb, han, hpc]
  · intro env s hrf
    simp [AndroidP.handleFineLocationResult, hrf]

/-- Witness for C3's amended statement at concrete states and environments. -/
theorem c3_denial_outcomes_amended_witness :
    (IOSP.handlePermissionRequest .denied
        ⟨true, true, true, true, false, true, true, false⟩).2 =
      [.resolve ⟨false, "denied"⟩] ∧
    (AndroidP.handleBackgroundLocationResult
        ⟨29, false, false, true, false, true, true⟩ false
        ⟨true, true, true, true, some .backgroundLocation⟩).2 =
      [.resolve (AndroidP.freshResult ⟨29, false, false, true, false, true, true⟩)] ∧
    (AndroidP.handleFineLocationResult
        ⟨29, false, false, false, false, true, true⟩ false
        ⟨true, true, true, false, some .fineLocation⟩).2 =
      [.reject "PERMISSION_DENIED"] :=
  ⟨(c3_denial_outcomes_amended.1
      ⟨true, true, true, true, false, true, true, false⟩ rfl rfl).1,
   c3_denial_outcomes_amended.2.1 ⟨29, false, false, true, false, true, true⟩
      ⟨true, true, true, true, some .backgroundLocation⟩ rfl rfl rfl,
   c3_denial_outcomes_amended.2.2 ⟨29, false, false, false, false, true, true⟩
      ⟨true, true, true, false, some .fineLocation⟩ rfl⟩

/-- C4: on the Android flow, a background-tier decline that is re-promptable
(rationale flag true) resolves successfully with the Foreground-tier outcome
(`hasAlwaysPermission = false`, status `whenInUse`), a non-re-promptable
background decline is rejected with `PERMANENTLY_DENIED`, and the same
permanent-denial check is applied independently at the foreground step,
where a non-re-promptable fine-location decline is also rejected with
`PERMANENTLY_DENIED`. -/
theorem c4_background_decline_handling :
    ∀ (env : AndroidP.Env) (s : AndroidP.AState),
      (env.rationaleBackground = true → env.activityNull = false →
        env.fineGranted = true → env.backgroundGranted = false →
        s.pendingCall = true →
        (AndroidP.handleBackgroundLocationResult env false s).2 =
          [.resolve ⟨false, true, false, "whenInUse"⟩]) ∧
      (env.rationaleBackground = false →
        (AndroidP.handleBackgroundLocationResult env false s).2 =
          [.reject "PERMANENTLY_DENIED"]) ∧
      (env.rationaleFine = false →
        (AndroidP.handleFineLocationResult env false s).2 =
          [.reject "PERMANENTLY_DENIED"]) := by
  intro env s
  refine ⟨?_, ?_, ?_⟩
  · intro hrb han hfg hbg hpc
    simp [AndroidP.handleBackgroundLocationResult,
      AndroidP.resolveWithPermissions, AndroidP.freshResult,
      hrb, han, hfg, hbg, hpc]
  · intro hrb
    simp [AndroidP.handleBackgroundLocationResult, hrb]
  · intro hrf
    simp [AndroidP.handleFineLocationResult, hrf]

/-- Witness for C4 at concrete environments exercising all three branches. -/
theorem c4_background_decline_handling_witness :
    (AndroidP.handleBackgroundLocationResult
        ⟨30, false, false, true, false, true, true⟩ false
        ⟨true, true, true, true, some .backgroundLocation⟩).2 =
      [.resolve ⟨false, true, false, "whenInUse"⟩] ∧
    (AndroidP.handleBackgroundLocationResult
        ⟨30, false, false, true, false, true, false⟩ false
        ⟨true, true, true, true, some .backgroundLocation⟩).2 =
      [.reject "PERMANENTLY_DENIED"] ∧
    (AndroidP.handleFineLocationResult
        ⟨30, false, false, false, false, false, true⟩ false
        ⟨true, true, true, false, some .fineLocation⟩).2 =
      [.reject "PERMANENTLY_DENIED"] :=
  ⟨(c4_background_decline_handling ⟨30, false, false, true, false, true, true⟩
      ⟨true, true, true, true, some .backgroundLocation⟩).1 rfl rfl rfl rfl rfl,
   (c4_background_decline_handling ⟨30, false, false, true, false, true, false⟩
      ⟨true, true, true, true, some .backgroundLocation⟩).2.1 rfl,
   (c4_background_decline_handling ⟨30, false, false, false, false, false, true⟩
      ⟨true, true, true, false, some .fineLocation⟩).2.2 rfl⟩



/-- C2: invoking `checkAndRequestPermission` while a request session is
already open fails immediately with `REQUEST_IN_PROGRESS` and leaves the
open session's state completely unchanged, on both the iOS-style and the
Android-style implementations, regardless of which tier the open session
is currently negotiating. -/
theorem c2_request_in_progress_guard :
    (∀ (status : IOSP.CLAuthorizationStatus) (s : IOSP.PState),
      s.isRequestingPermission = true →
      IOSP.checkAndRequestPermission status s =
        (s, [.reject "REQUEST_IN_PROGRESS"])) ∧
    (∀ (env : AndroidP.Env) (s : AndroidP.AState),
      s.isRequestingPermission = true →
      AndroidP.checkAndRequestPermission env s =
        (s, [.reject "REQUEST_IN_PROGRESS"])) := by
  constructor
  · intro status s h
    simp [IOSP.checkAndRequestPermission, h]
  · intro env s h
    simp [AndroidP.checkAndRequestPermission, h]

/-- Witness for C2 at a concrete open session on both platforms. -/
theorem c2_request_in_progress_guard_witness :
    IOSP.checkAndRequestPermission .notDetermined
        ⟨true, true, true, true, false, true, true, false⟩ =
      (⟨true, true, true, true, false, true, true, false⟩,
       [.reject "REQUEST_IN_PROGRESS"]) ∧
    AndroidP.checkAndRequestPermission ⟨30, false, false, false, false, false, false⟩
        ⟨true, true, true, false, none⟩ =
      (⟨true, true, true, false, none⟩, [.reject "REQUEST_IN_PROGRESS"]) :=
  ⟨c2_request_in_progress_guard.1 .notDetermined
      ⟨true, true, true, true, false, true, true, false⟩ rfl,
   c2_request_in_progress_guard.2 ⟨30, false, false, false, false, false, false⟩
      ⟨true, true, true, false, none⟩ rfl⟩

/-- C5: each OS-level request issued by the iOS flow leaves the session with
a (re)armed timeout — `startTimeoutTimer` first cancels any prior timer, so
the escalation step arms a fresh window even when a timer from the previous
dialog is still armed (the start states below have arbitrary `timeoutArmed`);
when the timer fires before a callback, the call is rejected with
`APP_BACKGROUNDED` if the session was flagged as backgrounded during the
window and with `PERMISSION_TIMEOUT` otherwise, and in both cases the
session is destroyed, so the single-flight guard no longer blocks a
subsequent invocation. -/
theorem c5_timeout_policy :
    (∀ s : IOSP.PState, s.locationManagerOk = true →
      ((IOSP.handlePermissionRequest .notDetermined s).1.timeoutArmed = true ∧
        (IOSP.handlePermissionRequest .notDetermined s).2 = [.requestWhenInUse]) ∧
      ((IOSP.handlePermissionRequest .authorizedWhenInUse s).1.timeoutArmed = true ∧
        (IOSP.handlePermissionRequest .authorizedWhenInUse s).2 = [.requestAlways]) ∧
      (s.hasRequestedAlways = false →
        (IOSP.handleAuthorizationStatusChange .authorizedWhenInUse s).1.timeoutArmed
            = true ∧
        (IOSP.handleAuthorizationStatusChange .authorizedWhenInUse s).2 =
          [.requestAlways])) ∧
    (∀ s : IOSP.PState, s.pendingCall = true →
      (s.wasBackgroundedDuringRequest = true →
        IOSP.timeoutTimerFired s =
          (IOSP.cleanup s, [.reject "APP_BACKGROUNDED"])) ∧
      (s.wasBackgroundedDuringRequest = false →
        IOSP.timeoutTimerFired s =
          (IOSP.cleanup s, [.reject "PERMISSION_TIMEOUT"])) ∧
      (IOSP.timeoutTimerFired s).1.isRequestingPermission = false ∧
      (IOSP.timeoutTimerFired s).1.pendingCall = false) := by
  constructor
  · intro s hlm
    refine ⟨⟨?_, ?_⟩, ⟨?_, ?_⟩, fun hra => ⟨?_, ?_⟩⟩ <;>
      simp [IOSP.handlePermissionRequest, IOSP.handleAuthorizationStatusChange,
        IOSP.startTimeoutTimer, IOSP.cancelTimeoutTimer, hlm]
    all_goals simp_all
  · intro s hpc
    cases hw : s.wasBackgroundedDuringRequest <;>
      simp [IOSP.timeoutTimerFired, IOSP.rejectWithError, IOSP.cleanup,
        IOSP.cancelTimeoutTimer, hpc, hw]

/-- Witness for C5 at a concrete in-flight session: an armed timer from the
previous dialog, then the timer firing with and without the backgrounded
flag. -/
theorem c5_timeout_policy_witness :
    (IOSP.handleAuthorizationStatusChange .authorizedWhenInUse
        ⟨true, true, true, true, false, true, true, false⟩).2 = [.requestAlways] ∧
    IOSP.timeoutTimerFired ⟨true, true, true, true, true, true, true, true⟩ =
      (IOSP.cleanup ⟨true, true, true, true, true, true, true, true⟩,
        [.reject "APP_BACKGROUNDED"]) ∧
    IOSP.timeoutTimerFired ⟨true, true, true, true, true, true, true, false⟩ =
      (IOSP.cleanup ⟨true, true, true, true, true, true, true, false⟩,
        [.reject "PERMISSION_TIMEOUT"]) :=
  ⟨(((c5_timeout_policy.1 ⟨true, true, true, true, false, true, true, false⟩
        rfl).2.2) rfl).2,
   (c5_timeout_policy.2 ⟨true, true, true, true, true, true, true, true⟩ rfl).1 rfl,
   ((c5_timeout_policy.2 ⟨true, true, true, true, true, true, true, false⟩
        rfl).2.1) rfl⟩

/-- C6 counterexample: the claim says the operation does not fail with
`SDK_VERSION_UNSUPPORTED` on Android 9 (API 28) and below. On a fresh
session with SDK 28 the Android entry point rejects immediately with
exactly that code and issues no OS request. -/
theorem c6_sdk28_rejected_counterexample :
    AndroidP.checkAndRequestPermission
        ⟨28, false, false, false, false, false, false⟩
        ⟨false, false, false, false, none⟩ =
      (⟨false, false, false, false, none⟩,
        [.reject "SDK_VERSION_UNSUPPORTED"]) := rfl

/-- C6 amended: on every SDK version below Android 10 (API 29) the Android
entry point fails immediately with `SDK_VERSION_UNSUPPORTED`, leaving the
state untouched and issuing no OS request; the combined-capability path in
`handleFineLocationResult` for SDK below 29 (a single fine-location grant
resolving the call) is therefore unreachable from the entry point, and even
when exercised it resolves with `hasAlwaysPermission = false` — it never
reports the Background tier. -/
theorem c6_sdk_gate_amended :
    (∀ (env : AndroidP.Env) (s : AndroidP.AState),
      s.isRequestingPermission = false → env.sdkInt < 29 →
      AndroidP.checkAndRequestPermission env s =
        (s, [.reject "SDK_VERSION_UNSUPPORTED"])) ∧
    (∀ (env : AndroidP.Env) (s : AndroidP.AState),
      env.sdkInt < 29 → env.activityNull = false → s.pendingCall = true →
      (AndroidP.handleFineLocationResult env true s).2 =
        [.resolve ⟨false, env.fineGranted, false,
          if env.fineGranted then "whenInUse" else "denied"⟩]) := by
  constructor
  · intro env s hreq hsdk
    have h1 : env.sdkInt < AndroidP.MIN_SDK_FOR_BACKGROUND_LOCATION := by
      simpa [AndroidP.MIN_SDK_FOR_BACKGROUND_LOCATION] using hsdk
    simp [AndroidP.checkAndRequestPermission, hreq, h1]
  · intro env s hsdk han hpc
    have h2 : decide (AndroidP.MIN_SDK_FOR_BACKGROUND_LOCATION ≤ env.sdkInt)
        = false := by
      simp [AndroidP.MIN_SDK_FOR_BACKGROUND_LOCATION]
      omega
    simp [AndroidP.handleFineLocationResult, AndroidP.resolveWithPermissions,
      AndroidP.freshResult, h2, han, hpc]

/-- Witness for C6's amended statement at SDK 28. -/
theorem c6_sdk_gate_amended_witness :
    AndroidP.checkAndRequestPermission
        ⟨28, false, false, true, true, false, false⟩
        ⟨false, false, false, false, none⟩ =
      (⟨false, false, false, false, none⟩,
        [.reject "SDK_VERSION_UNSUPPORTED"]) ∧
    (AndroidP.handleFineLocationResult ⟨28, false, false, true, true, false, false⟩
        true ⟨true, true, true, false, none⟩).2 =
      [.resolve ⟨false, true, false, "whenInUse"⟩] :=
  ⟨c6_sdk_gate_amended.1 ⟨28, false, false, true, true, false, false⟩
      ⟨false, false, false, false, none⟩ rfl (by decide),
   c6_sdk_gate_amended.2 ⟨28, false, false, true, true, false, false⟩
      ⟨true, true, true, false, none⟩ (by decide) rfl rfl⟩

/-- C7 counterexample: the claim says that under no termination of the host
component is a pending caller left unresolved. On the iOS implementation,
`deinit` run on a state holding a pending in-progress call emits no effect
at all — the caller is neither rejected with `ACTIVITY_DESTROYED` nor
resolved, and the session fields remain set. -/
theorem c7_ios_deinit_counterexample :
    (IOSP.deinitPlugin ⟨true, true, true, true, true, true, true, false⟩).2 = [] ∧
    (IOSP.deinitPlugin
        ⟨true, true, true, true, true, true, true, false⟩).1.pendingCall = true ∧
    (IOSP.deinitPlugin
        ⟨true, true, true, true, true, true, true,
          false⟩).1.isRequestingPermission = true :=
  ⟨rfl, rfl, rfl⟩

/-- C7 amended: on the Android implementation, destroying the host component
while a request is in progress rejects the pending caller with
`ACTIVITY_DESTROYED` and destroys the session; on the iOS implementation,
`deinit` only removes the lifecycle observers — it emits no effect and
leaves the pending call and the in-progress flag exactly as they were. -/
theorem c7_teardown_amended :
    (∀ s : AndroidP.AState,
      s.pendingCall = true → s.isRequestingPermission = true →
      AndroidP.handleOnDestroy s =
        (AndroidP.cleanup s, [.reject "ACTIVITY_DESTROYED"]) ∧
      (AndroidP.handleOnDestroy s).1.pendingCall = false ∧
      (AndroidP.handleOnDestroy s).1.isRequestingPermission = false) ∧
    (∀ s : IOSP.PState,
      (IOSP.deinitPlugin s).2 = [] ∧
      (IOSP.deinitPlugin s).1.pendingCall = s.pendingCall ∧
      (IOSP.deinitPlugin s).1.isRequestingPermission =
        s.isRequestingPermission) := by
  constructor
  · intro s hpc hreq
    refine ⟨?_, ?_, ?_⟩ <;>
      simp [AndroidP.handleOnDestroy, AndroidP.cleanup, hpc, hreq]
  · intro s
    exact ⟨rfl, rfl, rfl⟩

/-- Witness for C7's amended statement at a concrete in-progress session. -/
theorem c7_teardown_amended_witness :
    AndroidP.handleOnDestroy ⟨true, true, true, false, some .fineLocation⟩ =
      (AndroidP.cleanup ⟨true, true, true, false, some .fineLocation⟩,
        [.reject "ACTIVITY_DESTROYED"]) ∧
    (IOSP.deinitPlugin ⟨true, true, false, true, false, true, true, false⟩).2 = [] :=
  ⟨(c7_teardown_amended.1 ⟨true, true, true, false, some .fineLocation⟩ rfl rfl).1,
   (c7_teardown_amended.2 ⟨true, true, false, true, false, true, true, false⟩).1⟩

set_option maxRecDepth 8192 in
/-- C9: the web implementation of `checkAndRequestPermission` always fails
immediately with a constant error and performs no state-machine work. The
unnamed `web.ts` copy and the built `dist/` output throw an error whose code
prefix is `PLATFORM_UNSUPPORTED`, as the claim says; `src/web.ts`, however,
throws the Capacitor `unimplemented` exception, whose code is `UNIMPLEMENTED`,
not `PLATFORM_UNSUPPORTED`. -/
theorem c9_web_stub_behavior :
    WebP.checkAndRequestPermissionDist =
      .error WebP.platformUnsupportedMessage ∧
    WebP.platformUnsupportedMessage.take 20 = "PLATFORM_UNSUPPORTED" ∧
    WebP.checkAndRequestPermissionSrc =
      .error ⟨"Web platform is not supported.", "UNIMPLEMENTED"⟩ ∧
    ("UNIMPLEMENTED" = "PLATFORM_UNSUPPORTED") = False := by
  refine ⟨rfl, rfl, rfl, by simp⟩

/-- C8: every successful resolution produced by either implementation has
`hasAlwaysPermission = true` exactly when it carries the Background tier
(`authorizationStatus = "always"`): this holds for every resolution emitted
by the iOS entry point and delegate callback and by the Android entry point
and permission-result callback. -/
theorem c8_granted_background_iff_always :
    (∀ (status : IOSP.CLAuthorizationStatus) (s : IOSP.PState)
        (r : IOSP.PermissionResult),
      r ∈ IOSP.resolutionsOf (IOSP.checkAndRequestPermission status s).2 →
      (r.hasAlwaysPermission = true ↔ r.authorizationStatus = "always")) ∧
    (∀ (status : IOSP.CLAuthorizationStatus) (s : IOSP.PState)
        (r : IOSP.PermissionResult),
      r ∈ IOSP.resolutionsOf (IOSP.didChangeAuthorization status s).2 →
      (r.hasAlwaysPermission = true ↔ r.authorizationStatus = "always")) ∧
    (∀ (env : AndroidP.Env) (s : AndroidP.AState) (r : AndroidP.JSResult),
      r ∈ AndroidP.resolutionsOf (AndroidP.checkAndRequestPermission env s).2 →
      (r.hasAlwaysPermission = true ↔ r.authorizationStatus = "always")) ∧
    (∀ (env : AndroidP.Env) (requestCode : Nat) (grantResults : List Bool)
        (s : AndroidP.AState) (r : AndroidP.JSResult),
      r ∈ AndroidP.resolutionsOf
          (AndroidP.handleRequestPermissionsResult env requestCode grantResults s).2 →
      (r.hasAlwaysPermission = true ↔ r.authorizationStatus = "always")) := by
  refine ⟨?_, ?_, ?_, ?_⟩
  · intro status s r hr
    exact IOSP.checkAndRequestPermission_res_iff status s r hr
  · intro status s r hr
    exact IOSP.didChangeAuthorization_res_iff status s r hr
  · intro env s r hr
    rw [AndroidP.checkAndRequestPermission_res env s r hr]
    exact AndroidP.freshResult_iff env
  · intro env requestCode grantResults s r hr
    rw [AndroidP.handleRequestPermissionsResult_res env requestCode
      grantResults s r hr]
    exact AndroidP.freshResult_iff env

/-- Witness for C8: a concrete Background-tier resolution on each platform. -/
theorem c8_granted_background_iff_always_witness :
    ((true : Bool) = true ↔ ("always" : String) = "always") ∧
    ((true : Bool) = true ↔ ("always" : String) = "always") :=
  ⟨c8_granted_background_iff_always.1 .authorizedAlways
      ⟨true, false, false, false, false, true, true, false⟩
      ⟨true, "always"⟩ (by decide),
   c8_granted_background_iff_always.2.2.2
      ⟨30, false, false, true, true, false, false⟩
      AndroidP.REQUEST_CODE_BACKGROUND_LOCATION [true]
      ⟨true, true, true, true, some .backgroundLocation⟩
      ⟨true, true, true, "always"⟩ (by decide)⟩

/-- C10: every resolution the Android flow produces — whether from the entry
point or from the permission-result callback — equals the value recomputed
from the OS permission environment at resolution time (`freshResult env`),
independently of every cached plugin-state field; and that recomputed value
only ever carries the status `always`, `whenInUse` or `denied`, never
`notDetermined` or `restricted`. -/
theorem c10_fresh_resolution :
    (∀ (env : AndroidP.Env) (requestCode : Nat) (grantResults : List Bool)
        (s : AndroidP.AState) (r : AndroidP.JSResult),
      r ∈ AndroidP.resolutionsOf
          (AndroidP.handleRequestPermissionsResult env requestCode grantResults s).2 →
      r = AndroidP.freshResult env) ∧
    (∀ (env : AndroidP.Env) (s : AndroidP.AState) (r : AndroidP.JSResult),
      r ∈ AndroidP.resolutionsOf (AndroidP.checkAndRequestPermission env s).2 →
      r = AndroidP.freshResult env) ∧
    (∀ env : AndroidP.Env,
      (AndroidP.freshResult env).authorizationStatus = "always" ∨
      (AndroidP.freshResult env).authorizationStatus = "whenInUse" ∨
      (AndroidP.freshResult env).authorizationStatus = "denied") :=
  ⟨AndroidP.handleRequestPermissionsResult_res,
   AndroidP.checkAndRequestPermission_res,
   AndroidP.freshResult_status_mem⟩

/-- Witness for C10: the concrete resolution delivered after a background
grant equals the freshly recomputed result. -/
theorem c10_fresh_resolution_witness :
    (⟨true, true, true, "always"⟩ : AndroidP.JSResult) =
      AndroidP.freshResult ⟨30, false, false, true, true, false, false⟩ :=
  c10_fresh_resolution.1 ⟨30, false, false, true, true, false, false⟩
    AndroidP.REQUEST_CODE_BACKGROUND_LOCATION [true]
    ⟨true, true, true, true, some .backgroundLocation⟩
    ⟨true, true, true, "always"⟩ (by decide)
